import Mathlib

/-!
Verification of the DIDComm mediator load-testing repository.

The development embeds the load-generation logic of the repository in Lean:

* the environment-driven configuration object CONFIG of the enhanced
  processor, with its per-stage timeouts and retry count;
* the retryWithBackoff utility (exponential backoff over a bounded number
  of attempts);
* the per-stage timeout races built from createTimeout and Promise.race;
* the metric-emission behaviour of MetricsCollector and the control flow
  of connectToMediator in the enhanced processor, as a pure function from
  abstract stage outcomes to the emitted counters, histogram names, the
  done-callback invocations, the escaping exception (if any) and whether
  agent shutdown was attempted;
* the same for the basic processor (tests/processor.js);
* the wallet identifier construction (random base36 draw plus
  Date.now() millisecond, joined by dashes);
* the arrival-rate phase scheduler (modelled from the spec, since the
  arrival engine itself is the Artillery dependency, not repository
  source);
* the rate computations of the test reporter.

Stage outcomes, attempt outcomes and agent operations are abstract inputs
(Except values and durations): the cryptographic agent is an external
capability, exactly as the spec scopes it.
-/

/-- Shallow embedding of the enhanced processor configuration object.
A value read from the environment behaves like parseInt(x) with a
JavaScript fallback: an absent or unparsable variable is none, and a
parsed zero still falls back to the default because of the prefer-default
or-expression in the source. -/
def configValue (envVar : Option ℕ) (deflt : ℕ) : ℕ :=
  match envVar with
  | some v => if v = 0 then deflt else v
  | none => deflt

/-- The CONFIG fields of the enhanced processor that drive the state
machine: per-stage timeouts in milliseconds and the retry bound. -/
structure Config where
  connectionTimeout : ℕ
  mediationTimeout : ℕ
  pickupTimeout : ℕ
  maxRetries : ℕ

/-- Builds CONFIG from the four environment variables, with the default
values written in the source: 15000, 10000, 5000 and 3. -/
def mkConfig (ct mt pt mr : Option ℕ) : Config :=
  { connectionTimeout := configValue ct 15000
  , mediationTimeout := configValue mt 10000
  , pickupTimeout := configValue pt 5000
  , maxRetries := configValue mr 3 }

/-- Observable trace of one retryWithBackoff invocation: the value it
settles with (none models the undefined value the JavaScript loop returns
when maxRetries is zero), the backoff delays awaited between attempts in
order, and how many times the wrapped operation was invoked. -/
structure RetryTrace (α : Type) where
  result : Option (Except String α)
  delays : List ℕ
  calls : ℕ


/-- Loop body of retryWithBackoff. The first argument gives the outcome
of each attempt (1-indexed); attempt is the current attempt number and
the second numeric argument is the number of attempts still allowed
(maxRetries - attempt + 1 at every call site). A success returns at once;
a failure on the final allowed attempt rethrows that error; otherwise the
loop sleeps base * 2 ^ (attempt - 1) milliseconds and continues. -/
def retryRun {α : Type} (f : ℕ → Except String α) (base : ℕ) :
    ℕ → ℕ → RetryTrace α
  | _, 0 => ⟨none, [], 0⟩
  | attempt, fuel + 1 =>
    match f attempt with
    | Except.ok a => ⟨some (Except.ok a), [], 1⟩
    | Except.error e =>
      if fuel = 0 then ⟨some (Except.error e), [], 1⟩
      else
        let t := retryRun f base (attempt + 1) fuel
        ⟨t.result, base * 2 ^ (attempt - 1) :: t.delays, t.calls + 1⟩

/-- retryWithBackoff(fn, maxRetries, baseDelay) from the enhanced
processor, starting at attempt 1. -/
def retryWithBackoff {α : Type} (f : ℕ → Except String α)
    (maxRetries baseDelay : ℕ) : RetryTrace α :=
  retryRun f baseDelay 1 maxRetries

/-- Rejection message produced by createTimeout(ms, name). -/
def timeoutMessage (name : String) (ms : ℕ) : String :=
  name ++ " timeout after " ++ Nat.repr ms ++ "ms"

/-- Promise.race of an agent operation against createTimeout(ms, name):
the operation result wins exactly when the operation settles strictly
before the timer fires, otherwise the race rejects with the timeout
error. -/
def raceTimeout {α : Type} (opDuration : ℕ) (opResult : Except String α)
    (ms : ℕ) (name : String) : Except String α :=
  if opDuration < ms then opResult else Except.error (timeoutMessage name ms)

/-- One attempt of the mediation stage: the requestMediation agent call
raced against the Mediation timeout of CONFIG. -/
def mediationInvoke (cfg : Config) (opDuration : ℕ)
    (opResult : Except String Unit) : Except String Unit :=
  raceTimeout opDuration opResult cfg.mediationTimeout "Mediation"

/-- One attempt of the pickup stage: initiateMessagePickup raced against
the Message pickup timeout of CONFIG. -/
def pickupInvoke (cfg : Config) (opDuration : ℕ)
    (opResult : Except String Unit) : Except String Unit :=
  raceTimeout opDuration opResult cfg.pickupTimeout "Message pickup"

/-- The wait-for-completion part of the connect stage: a setTimeout of
CONFIG.connectionTimeout rejects with the fixed completion-timeout
message unless the connection reaches the completed state first. -/
def connectWait (cfg : Config) (completesIn : ℕ) : Except String Unit :=
  if completesIn < cfg.connectionTimeout then Except.ok ()
  else Except.error "Connection completion timeout"

/-- The mediation stage of the enhanced processor: every attempt is the
raced agent call, and the whole stage runs under retryWithBackoff with
CONFIG.maxRetries and the default base delay of 1000 ms. The attempts
argument gives the duration and outcome of each underlying agent call. -/
def requestMediation (cfg : Config) (attempts : ℕ → ℕ × Except String Unit) :
    RetryTrace Unit :=
  retryWithBackoff (fun k => mediationInvoke cfg (attempts k).1 (attempts k).2)
    cfg.maxRetries 1000

/-- MetricsCollector.emitCounter: the event is emitted only when
performance logging is enabled (the events object is always supplied by
the Artillery engine). -/
def emitCounter (perf : Bool) (name : String) : List String :=
  if perf then [name] else []

/-- MetricsCollector.emitMetric for histogram events, gated the same
way as counters. -/
def emitHistogram (perf : Bool) (name : String) : List String :=
  if perf then [name] else []

/-- Abstract input of one enhanced-processor WalletRun: the post-retry
outcome of agent initialization and of each protocol stage, the outcome
of the final agent shutdown, whether the Artillery done callback is a
function, and the CONFIG.performanceLogging flag. -/
structure RunEnv where
  initRes : Except String Unit
  connRes : Except String Unit
  medRes : Except String Unit
  pickRes : Except String Unit
  shutdownRes : Except String Unit
  doneIsFn : Bool
  perfLogging : Bool


/-- Observable outcome of one enhanced-processor WalletRun: counter
events in emission order, histogram events in emission order, the done
invocations in order (some e is done(error), none is done()), the
exception escaping connectToMediator if any, and whether agent.shutdown
was attempted. -/
structure RunOutput where
  counters : List String
  histograms : List String
  doneCalls : List (Option String)
  thrown : Option String
  shutdownAttempted : Bool


/-- The catch block of the enhanced connectToMediator followed by its
finally block. recordError adds one didcomm.test.failed counter and the
explicit emitCounter call adds a second; done(error) is invoked when done
is a function, otherwise the error is rethrown; the finally block then
attempts shutdown when the agent was initialized (a shutdown error is
swallowed after logging) and invokes done() when done is a function. -/
def runCatchFinally (env : RunEnv) (cs hs : List String) (e : String)
    (agentInit : Bool) : RunOutput :=
  { counters := cs ++ emitCounter env.perfLogging "didcomm.test.failed"
      ++ emitCounter env.perfLogging "didcomm.test.failed"
  , histograms := hs
  , doneCalls := (if env.doneIsFn then [some e] else [])
      ++ (if env.doneIsFn then [(none : Option String)] else [])
  , thrown := if env.doneIsFn then none else some e
  , shutdownAttempted := agentInit }

/-- The finally block alone, on the path where the try block completed:
shutdown is attempted when the agent was initialized and done() is
invoked when done is a function. -/
def runFinally (env : RunEnv) (cs hs : List String) (agentInit : Bool) :
    RunOutput :=
  { counters := cs
  , histograms := hs
  , doneCalls := if env.doneIsFn then [(none : Option String)] else []
  , thrown := none
  , shutdownAttempted := agentInit }

/-- The enhanced connectToMediator as a function of the abstract run
environment. Connection success emits the connection duration histogram
and success counter (via the ConnectionStateChanged listener calling
endConnection); mediation success emits its duration and success counter
inside the retried promise; a pickup failure is recorded as a
didcomm.pickup.failed counter by recordError and then swallowed by the
inner catch, after which the run still emits the total-duration histogram
and the didcomm.test.success counter; an initialization, connection or
mediation error reaches the outer catch block. -/
def connectToMediator (env : RunEnv) : RunOutput :=
  match env.initRes with
  | Except.error e => runCatchFinally env [] [] e false
  | Except.ok _ =>
    match env.connRes with
    | Except.error e => runCatchFinally env [] [] e true
    | Except.ok _ =>
      let cs1 := emitCounter env.perfLogging "didcomm.connection.success"
      let hs1 := emitHistogram env.perfLogging "didcomm.connection.duration"
      match env.medRes with
      | Except.error e => runCatchFinally env cs1 hs1 e true
      | Except.ok _ =>
        let cs2 := cs1 ++ emitCounter env.perfLogging "didcomm.mediation.success"
        let hs2 := hs1 ++ emitHistogram env.perfLogging "didcomm.mediation.duration"
        match env.pickRes with
        | Except.ok _ =>
          runFinally env
            (cs2 ++ emitCounter env.perfLogging "didcomm.pickup.success"
              ++ emitCounter env.perfLogging "didcomm.test.success")
            (hs2 ++ emitHistogram env.perfLogging "didcomm.pickup.duration"
              ++ emitHistogram env.perfLogging "didcomm.test.total_duration")
            true
        | Except.error _ =>
          runFinally env
            (cs2 ++ emitCounter env.perfLogging "didcomm.pickup.failed"
              ++ emitCounter env.perfLogging "didcomm.test.success")
            (hs2 ++ emitHistogram env.perfLogging "didcomm.test.total_duration")
            true

/-- Abstract input of one basic-processor WalletRun
(tests/processor.js): outcome of agent initialization, of
receiveInvitationFromUrl, whether the connection completed within the
hard-coded ten second race, outcomes of the mediation and pickup calls,
the shutdown outcome and whether done is a function. -/
structure BasicEnv where
  initRes : Except String Unit
  invitationRes : Except String Unit
  connCompleted : Bool
  medRes : Except String Unit
  pickRes : Except String Unit
  shutdownRes : Except String Unit
  doneIsFn : Bool


/-- Observable outcome of one basic-processor WalletRun. -/
structure BasicOutput where
  counters : List String
  histograms : List String
  doneCalls : List (Option String)
  thrown : Option String
  shutdownAttempted : Bool


/-- The catch block of the basic connectToMediator: done(error) when done
is a function, otherwise the error is rethrown. No finally block exists
in the basic processor. -/
def basicCatch (env : BasicEnv) (cs hs : List String) (sd : Bool)
    (e : String) : BasicOutput :=
  { counters := cs
  , histograms := hs
  , doneCalls := if env.doneIsFn then [some e] else []
  , thrown := if env.doneIsFn then none else some e
  , shutdownAttempted := sd }

/-- End of the basic try block: agent.shutdown is awaited inside the try,
so a shutdown error falls into the catch block; on success done() is
invoked when done is a function. -/
def basicShutdownThenDone (env : BasicEnv) (cs hs : List String) :
    BasicOutput :=
  match env.shutdownRes with
  | Except.error e => basicCatch env cs hs true e
  | Except.ok _ =>
    { counters := cs
    , histograms := hs
    , doneCalls := if env.doneIsFn then [(none : Option String)] else []
    , thrown := none
    , shutdownAttempted := true }

/-- The basic connectToMediator as a function of the abstract run
environment. An initialization or invitation error jumps to the catch
block before any shutdown; a mediation error is swallowed by its inner
catch (without emitting any failed counter); a pickup error emits the
didcomm.pickup.failed counter; the connection-timeout branch emits
nothing; all of those paths then reach the shutdown call at the end of
the try block. -/
def basicConnectToMediator (env : BasicEnv) : BasicOutput :=
  match env.initRes with
  | Except.error e => basicCatch env [] [] false e
  | Except.ok _ =>
    match env.invitationRes with
    | Except.error e => basicCatch env [] [] false e
    | Except.ok _ =>
      if env.connCompleted then
        let cs1 := ["didcomm.connection.success"]
        let hs1 := ["didcomm.connection.duration"]
        match env.medRes with
        | Except.error _ => basicShutdownThenDone env cs1 hs1
        | Except.ok _ =>
          let cs2 := cs1 ++ ["didcomm.mediation.success"]
          let hs2 := hs1 ++ ["didcomm.mediation.duration"]
          match env.pickRes with
          | Except.ok _ =>
            basicShutdownThenDone env (cs2 ++ ["didcomm.pickup.success"])
              (hs2 ++ ["didcomm.pickup.duration"])
          | Except.error _ =>
            basicShutdownThenDone env (cs2 ++ ["didcomm.pickup.failed"]) hs2
      else
        basicShutdownThenDone env [] []

/-- Wallet identifier construction from the two interpolated pieces: the
random base36 draw and the stringified creation timestamp. -/
def walletIdS (uniqueId : String) (timeStr : String) : String :=
  "wallet-" ++ uniqueId ++ "-" ++ timeStr

/-- Wallet identifier exactly as built in both processors:
wallet-${uniqueId}-${Date.now()}. -/
def walletId (uniqueId : String) (now : ℕ) : String :=
  walletIdS uniqueId (Nat.repr now)

/-- Identifier of the k-th WalletRun created during a run, where rand
gives the Math.random base36 draw of each creation and time the
Date.now() millisecond of each creation. -/
def runWalletId (rand : ℕ → String) (time : ℕ → ℕ) (k : ℕ) : String :=
  walletId (rand k) (time k)

/-- Modelled from the spec: the arrival-rate phase scheduler is the
Artillery engine, which is a dependency rather than repository source.
Following the spec, a phase with constant rate r over duration d seconds
beginning at the given cumulative offset emits starts at fixed intervals
of 1000 / r milliseconds, from the offset onward, until the duration is
exhausted; a non-positive rate emits none. -/
def phaseStarts (offset r d : ℚ) : List ℚ :=
  if 0 < r then
    (List.range (⌈r * d⌉).toNat).map (fun k : ℕ => offset + (k : ℚ) * (1000 / r))
  else []

/-- Lookup of a counter in the aggregate counters map with the
JavaScript or-zero fallback used throughout the reporter. -/
def counterGet (counters : String → Option ℚ) (name : String) : ℚ :=
  (counters name).getD 0

/-- TestReporter.calculateSuccessRate on the aggregate counters map. -/
def calculateSuccessRate (counters : String → Option ℚ) : ℚ :=
  let completed := counterGet counters "vusers.completed"
  let failed := counterGet counters "vusers.failed"
  let total := completed + failed
  if 0 < total then completed / total else 0

/-- TestReporter.calculateErrorRate on the aggregate counters map. -/
def calculateErrorRate (counters : String → Option ℚ) : ℚ :=
  let completed := counterGet counters "vusers.completed"
  let failed := counterGet counters "vusers.failed"
  let total := completed + failed
  if 0 < total then failed / total else 0

/-- TestReporter.calculateRate on a pair of possibly-absent counters. -/
def calculateRate (success failed : Option ℚ) : ℚ :=
  let total := success.getD 0 + failed.getD 0
  if 0 < total then success.getD 0 / total else 0

/-- Concrete enhanced-processor run: all stages succeed except pickup;
done is a function and performance logging is on. -/
def pickupFailEnv : RunEnv :=
  ⟨Except.ok (), Except.ok (), Except.ok (),
   Except.error "Message pickup timeout after 5000ms", Except.ok (), true, true⟩

/-- Concrete enhanced-processor run whose connection stage fails after
exhausting retries. -/
def connFailEnv : RunEnv :=
  ⟨Except.ok (), Except.error "Connection completion timeout", Except.ok (),
   Except.ok (), Except.ok (), true, true⟩

/-- Concrete enhanced-processor run whose mediation stage fails after
exhausting retries. -/
def medFailEnv : RunEnv :=
  ⟨Except.ok (), Except.ok (), Except.error "Mediation timeout after 10000ms",
   Except.ok (), Except.ok (), true, true⟩

/-- Concrete enhanced-processor run with a connection-stage error while
the done callback is not a function. -/
def noDoneEnv : RunEnv :=
  ⟨Except.ok (), Except.error "connect ECONNREFUSED", Except.ok (),
   Except.ok (), Except.ok (), false, true⟩

/-- Concrete enhanced-processor run where everything succeeds. -/
def allOkEnv : RunEnv :=
  ⟨Except.ok (), Except.ok (), Except.ok (), Except.ok (), Except.ok (),
   true, true⟩

/-- Concrete basic-processor run whose receiveInvitationFromUrl call
throws: the catch block is entered before the shutdown line. -/
def basicConnFailEnv : BasicEnv :=
  ⟨Except.ok (), Except.error "connection refused", true, Except.ok (),
   Except.ok (), Except.ok (), true⟩

/-- Concrete basic-processor run where everything succeeds. -/
def basicOkEnv : BasicEnv :=
  ⟨Except.ok (), Except.ok (), true, Except.ok (), Except.ok (),
   Except.ok (), true⟩

/-- Concrete basic-processor run where only the shutdown call fails. -/
def basicShutFailEnv : BasicEnv :=
  ⟨Except.ok (), Except.ok (), true, Except.ok (), Except.ok (),
   Except.error "shutdown failed", true⟩

/-- Attempt outcomes used to exercise retryWithBackoff: the first
attempt fails and the second succeeds with the value 7. -/
def retryWitnessF : ℕ → Except String ℕ :=
  fun k => if k = 1 then Except.error "boom" else Except.ok 7

theorem retryRun_calls_le {α : Type} (f : ℕ → Except String α) (base : ℕ) :
    ∀ (fuel attempt : ℕ), (retryRun f base attempt fuel).calls ≤ fuel := by
  intro fuel
  induction fuel with
  | zero => intro attempt; simp [retryRun]
  | succ n ih =>
    intro attempt
    rw [retryRun]
    cases hf : f attempt with
    | ok a => simp
    | error e =>
      by_cases hn : n = 0
      · simp [hn]
      · simp only [hn, if_false]
        exact Nat.succ_le_succ (ih (attempt + 1))

theorem retryRun_success {α : Type} (f : ℕ → Except String α) (base : ℕ) :
    ∀ (i : ℕ) (fuel attempt : ℕ) (a : α), i < fuel →
      (∀ j, attempt ≤ j → j < attempt + i → ∃ e, f j = Except.error e) →
      f (attempt + i) = Except.ok a →
      retryRun f base attempt fuel =
        ⟨some (Except.ok a),
         (List.range i).map (fun j => base * 2 ^ (attempt + j - 1)), i + 1⟩ := by
  intro i
  induction i with
  | zero =>
    intro fuel attempt a hif herr hok
    cases fuel with
    | zero => omega
    | succ n =>
      rw [Nat.add_zero] at hok
      rw [retryRun, hok]
      simp
  | succ m ih =>
    intro fuel attempt a hif herr hok
    cases fuel with
    | zero => omega
    | succ n =>
      obtain ⟨e, he⟩ := herr attempt (Nat.le_refl _) (by omega)
      have hn : n ≠ 0 := by omega
      have ht := ih n (attempt + 1) a (by omega)
        (fun j hj1 hj2 => herr j (by omega) (by omega))
        (by rw [show attempt + 1 + m = attempt + (m + 1) by omega]; exact hok)
      rw [retryRun, he]
      simp only [hn, if_false, ht]
      have hdel : (List.range (m + 1)).map (fun j => base * 2 ^ (attempt + j - 1))
          = base * 2 ^ (attempt - 1)
            :: (List.range m).map (fun j => base * 2 ^ (attempt + 1 + j - 1)) := by
        rw [List.range_succ_eq_map, List.map_cons, List.map_map]
        refine congrArg₂ List.cons (by norm_num) ?_
        refine List.map_congr_left ?_
        intro j hj
        simp only [Function.comp_apply]
        exact congrArg (fun t => base * 2 ^ t) (by omega)
      rw [hdel]

theorem retryRun_allFail {α : Type} (f : ℕ → Except String α) (base : ℕ) :
    ∀ (fuel attempt : ℕ), 1 ≤ fuel →
      (∀ j, attempt ≤ j → j < attempt + fuel → ∃ e, f j = Except.error e) →
      (retryRun f base attempt fuel).result = some (f (attempt + fuel - 1)) ∧
      (retryRun f base attempt fuel).calls = fuel := by
  intro fuel
  induction fuel with
  | zero => intro attempt h; omega
  | succ n ih =>
    intro attempt _ herr
    obtain ⟨e, he⟩ := herr attempt (Nat.le_refl _) (by omega)
    cases n with
    | zero =>
      rw [retryRun, he]
      simp [he]
    | succ m =>
      have hrec := ih (attempt + 1) (by omega)
        (fun j hj1 hj2 => herr j (by omega) (by omega))
      rw [retryRun, he]
      simp only [Nat.succ_ne_zero, if_false]
      refine ⟨?_, ?_⟩
      · rw [show attempt + (m + 1 + 1) - 1 = attempt + 1 + (m + 1) - 1 by omega]
        exact hrec.1
      · simpa using hrec.2

/-- C2: retryWithBackoff invokes the operation at most maxRetries times;
a first success at attempt k returns that result after exactly k
invocations, having slept baseDelay * 2 ^ (j - 1) milliseconds after
each failed attempt j < k; if every attempt fails, the error of the
final attempt is raised; the default retry bound of CONFIG is 3. -/
theorem retryWithBackoff_spec {α : Type} (f : ℕ → Except String α)
    (m base : ℕ) (hm : 1 ≤ m) :
    (retryWithBackoff f m base).calls ≤ m ∧
    (∀ k a, 1 ≤ k → k ≤ m →
      (∀ j, 1 ≤ j → j < k → ∃ e, f j = Except.error e) →
      f k = Except.ok a →
      retryWithBackoff f m base =
        ⟨some (Except.ok a),
         (List.range (k - 1)).map (fun j => base * 2 ^ j), k⟩) ∧
    (∀ e, (∀ j, 1 ≤ j → j ≤ m → ∃ e2, f j = Except.error e2) →
      f m = Except.error e →
      (retryWithBackoff f m base).result = some (Except.error e) ∧
      (retryWithBackoff f m base).calls = m) ∧
    (mkConfig none none none none).maxRetries = 3 := by
  refine ⟨retryRun_calls_le f base m 1, ?_, ?_, rfl⟩
  · intro k a hk1 hkm herr hok
    have h := retryRun_success f base (k - 1) m 1 a (by omega)
      (fun j hj1 hj2 => herr j hj1 (by omega))
      (by rw [show 1 + (k - 1) = k by omega]; exact hok)
    rw [retryWithBackoff, h]
    have hmap : (List.range (k - 1)).map (fun j => base * 2 ^ (1 + j - 1))
        = (List.range (k - 1)).map (fun j => base * 2 ^ j) := by
      refine List.map_congr_left ?_
      intro j hj
      exact congrArg (fun t => base * 2 ^ t) (by omega)
    rw [hmap]
    have : k - 1 + 1 = k := by omega
    rw [this]
  · intro e herr hlast
    have h := retryRun_allFail f base m 1 hm
      (fun j hj1 hj2 => herr j hj1 (by omega))
    rw [retryWithBackoff]
    refine ⟨?_, h.2⟩
    rw [h.1, show 1 + m - 1 = m by omega, hlast]

/-- Witness for C2 at a concrete operation: the first attempt fails,
the second succeeds, so the trace is the success value, one backoff
delay of 1000 ms and exactly two invocations. -/
theorem retryWithBackoff_spec_witness :
    retryWithBackoff retryWitnessF 3 1000 =
      ⟨some (Except.ok 7), [1000], 2⟩ := by
  have h := (retryWithBackoff_spec retryWitnessF 3 1000 (by decide)).2.1 2 7
    (by decide) (by decide)
    (by intro j h1 h2
        have hj : j = 1 := by omega
        subst hj
        exact ⟨"boom", rfl⟩)
    rfl
  rw [h]
  rfl

/-- C6: each stage invocation is bounded by its own configurable timeout
with defaults 15000 ms (connect), 10000 ms (mediation) and 5000 ms
(pickup); an invocation whose agent call does not settle before the
timer fails with the timeout error, otherwise the agent result is
returned; and a mediation stage whose every attempt times out exhausts
the retry policy and surfaces the timeout error. -/
theorem stage_timeouts_spec :
    ((mkConfig none none none none).connectionTimeout = 15000 ∧
     (mkConfig none none none none).mediationTimeout = 10000 ∧
     (mkConfig none none none none).pickupTimeout = 5000) ∧
    (∀ v : ℕ, 0 < v →
      (mkConfig (some v) none none none).connectionTimeout = v ∧
      (mkConfig none (some v) none none).mediationTimeout = v ∧
      (mkConfig none none (some v) none).pickupTimeout = v) ∧
    (∀ (cfg : Config) (d : ℕ) (res : Except String Unit),
      (cfg.mediationTimeout ≤ d →
        mediationInvoke cfg d res =
          Except.error (timeoutMessage "Mediation" cfg.mediationTimeout)) ∧
      (d < cfg.mediationTimeout → mediationInvoke cfg d res = res) ∧
      (cfg.pickupTimeout ≤ d →
        pickupInvoke cfg d res =
          Except.error (timeoutMessage "Message pickup" cfg.pickupTimeout)) ∧
      (d < cfg.pickupTimeout → pickupInvoke cfg d res = res)) ∧
    (∀ (cfg : Config) (t : ℕ),
      (cfg.connectionTimeout ≤ t →
        connectWait cfg t = Except.error "Connection completion timeout") ∧
      (t < cfg.connectionTimeout → connectWait cfg t = Except.ok ())) ∧
    (∀ (cfg : Config) (attempts : ℕ → ℕ × Except String Unit),
      1 ≤ cfg.maxRetries →
      (∀ k, cfg.mediationTimeout ≤ (attempts k).1) →
      (requestMediation cfg attempts).result =
        some (Except.error (timeoutMessage "Mediation" cfg.mediationTimeout)) ∧
      (requestMediation cfg attempts).calls = cfg.maxRetries) := by
  refine ⟨⟨rfl, rfl, rfl⟩, ?_, ?_, ?_, ?_⟩
  · intro v hv
    refine ⟨?_, ?_, ?_⟩ <;>
      simp [mkConfig, configValue, Nat.pos_iff_ne_zero.mp hv]
  · intro cfg d res
    refine ⟨?_, ?_, ?_, ?_⟩ <;> intro h <;>
      simp [mediationInvoke, pickupInvoke, raceTimeout, Nat.not_lt.mpr h, h]
  · intro cfg t
    refine ⟨?_, ?_⟩ <;> intro h <;>
      simp [connectWait, Nat.not_lt.mpr h, h]
  · intro cfg attempts hm htime
    have hfail : ∀ j, 1 ≤ j → j ≤ cfg.maxRetries →
        ∃ e, mediationInvoke cfg (attempts j).1 (attempts j).2 = Except.error e := by
      intro j _ _
      exact ⟨timeoutMessage "Mediation" cfg.mediationTimeout,
        by simp [mediationInvoke, raceTimeout, Nat.not_lt.mpr (htime j)]⟩
    have h := retryRun_allFail
      (fun k => mediationInvoke cfg (attempts k).1 (attempts k).2) 1000
      cfg.maxRetries 1 hm
      (fun j hj1 hj2 => hfail j hj1 (by omega))
    refine ⟨?_, h.2⟩
    rw [requestMediation, retryWithBackoff, h.1,
      show 1 + cfg.maxRetries - 1 = cfg.maxRetries by omega]
    show some (mediationInvoke cfg (attempts cfg.maxRetries).1
      (attempts cfg.maxRetries).2) = _
    simp [mediationInvoke, raceTimeout, Nat.not_lt.mpr (htime cfg.maxRetries)]

/-- Witness for C6: the default configuration has the three documented
timeouts, a mediation call lasting the full default timeout fails with
the Mediation timeout error, and a faster call returns its own result. -/
theorem stage_timeouts_spec_witness :
    (mkConfig none none none none).connectionTimeout = 15000 ∧
    (mkConfig none none none none).mediationTimeout = 10000 ∧
    (mkConfig none none none none).pickupTimeout = 5000 ∧
    (mkConfig (some 20000) none none none).connectionTimeout = 20000 ∧
    mediationInvoke (mkConfig none none none none) 10000 (Except.ok ()) =
      Except.error (timeoutMessage "Mediation" 10000) ∧
    mediationInvoke (mkConfig none none none none) 42 (Except.ok ()) =
      Except.ok () := by
  have h := stage_timeouts_spec
  refine ⟨h.1.1, h.1.2.1, h.1.2.2, (h.2.1 20000 (by decide)).1, ?_, ?_⟩
  · exact (h.2.2.1 (mkConfig none none none none) 10000 (Except.ok ())).1
      (by decide)
  · exact (h.2.2.1 (mkConfig none none none none) 42 (Except.ok ())).2.1
      (by decide)

theorem counterGet_nonneg (counters : String → Option ℚ)
    (h : ∀ n v, counters n = some v → 0 ≤ v) (name : String) :
    0 ≤ counterGet counters name := by
  unfold counterGet
  cases hc : counters name with
  | none => simp
  | some v => simpa using h name v hc

/-- C9: the reporter rate computations are total and bounded: each of
calculateSuccessRate, calculateErrorRate and calculateRate returns 0
when the relevant total is 0 and otherwise a value in the closed unit
interval, for arbitrary non-negative counter inputs. -/
theorem reporter_rates_spec (counters : String → Option ℚ)
    (hpos : ∀ n v, counters n = some v → 0 ≤ v)
    (success failed : Option ℚ)
    (hs : 0 ≤ success.getD 0) (hf : 0 ≤ failed.getD 0) :
    (0 ≤ calculateSuccessRate counters ∧ calculateSuccessRate counters ≤ 1) ∧
    (0 ≤ calculateErrorRate counters ∧ calculateErrorRate counters ≤ 1) ∧
    (0 ≤ calculateRate success failed ∧ calculateRate success failed ≤ 1) ∧
    (counterGet counters "vusers.completed"
        + counterGet counters "vusers.failed" = 0 →
      calculateSuccessRate counters = 0 ∧ calculateErrorRate counters = 0) ∧
    (success.getD 0 + failed.getD 0 = 0 → calculateRate success failed = 0) := by
  have hc := counterGet_nonneg counters hpos "vusers.completed"
  have hfd := counterGet_nonneg counters hpos "vusers.failed"
  set a := counterGet counters "vusers.completed" with ha
  set b := counterGet counters "vusers.failed" with hb
  refine ⟨?_, ?_, ?_, ?_, ?_⟩
  · rw [calculateSuccessRate, ← ha, ← hb]
    split_ifs with h
    · constructor
      · exact div_nonneg hc (le_of_lt h)
      · rw [div_le_one h]; linarith
    · norm_num
  · rw [calculateErrorRate, ← ha, ← hb]
    split_ifs with h
    · constructor
      · exact div_nonneg hfd (le_of_lt h)
      · rw [div_le_one h]; linarith
    · norm_num
  · rw [calculateRate]
    split_ifs with h
    · constructor
      · exact div_nonneg hs (le_of_lt h)
      · rw [div_le_one h]; linarith
    · norm_num
  · intro h0
    rw [calculateSuccessRate, calculateErrorRate]
    simp [h0]
  · intro h0
    rw [calculateRate]
    simp [h0]

/-- Witness for C9 at the empty counters map: every rate is 0 and in
particular well defined with no division by zero. -/
theorem reporter_rates_spec_witness :
    0 ≤ calculateSuccessRate (fun _ => none) ∧
    calculateSuccessRate (fun _ => none) ≤ 1 ∧
    calculateRate none none = 0 := by
  have h := reporter_rates_spec (fun _ => none)
    (by intro n v hv; exact absurd hv (by simp)) none none
    (by simp) (by simp)
  exact ⟨h.1.1, h.1.2, h.2.2.2.2 (by simp [counterGet])⟩

/-- C1: when connection and mediation succeed, a pickup failure after
retries is non-fatal: the run emits the didcomm.test.success counter and
the didcomm.pickup.failed counter and does not emit didcomm.test.failed. -/
theorem pickup_failure_nonfatal (env : RunEnv) (e : String)
    (hp : env.perfLogging = true)
    (hi : env.initRes = Except.ok ()) (hc : env.connRes = Except.ok ())
    (hm : env.medRes = Except.ok ()) (hk : env.pickRes = Except.error e) :
    "didcomm.test.success" ∈ (connectToMediator env).counters ∧
    "didcomm.pickup.failed" ∈ (connectToMediator env).counters ∧
    "didcomm.test.failed" ∉ (connectToMediator env).counters := by
  obtain ⟨i, c, m, p, s, d, pl⟩ := env
  simp only at hp hi hc hm hk
  subst hp hi hc hm hk
  simp [connectToMediator, runFinally, emitCounter, emitHistogram]

/-- Witness for C1 at a concrete run where only pickup fails. -/
theorem pickup_failure_nonfatal_witness :
    "didcomm.test.success" ∈ (connectToMediator pickupFailEnv).counters ∧
    "didcomm.pickup.failed" ∈ (connectToMediator pickupFailEnv).counters ∧
    "didcomm.test.failed" ∉ (connectToMediator pickupFailEnv).counters :=
  pickup_failure_nonfatal pickupFailEnv "Message pickup timeout after 5000ms"
    rfl rfl rfl rfl rfl

/-- C3 evaluation: on a connection-stage failure the enhanced processor
emits didcomm.test.failed twice and no didcomm.connection.failed, and on
a mediation-stage failure it emits didcomm.test.failed twice and no
didcomm.mediation.failed — the per-stage failed counter required by the
claim is never produced on those paths. -/
theorem stage_failed_counters_missing :
    (connectToMediator connFailEnv).counters =
      ["didcomm.test.failed", "didcomm.test.failed"] ∧
    "didcomm.connection.failed" ∉ (connectToMediator connFailEnv).counters ∧
    (connectToMediator medFailEnv).counters =
      ["didcomm.connection.success", "didcomm.test.failed",
       "didcomm.test.failed"] ∧
    "didcomm.mediation.failed" ∉ (connectToMediator medFailEnv).counters := by
  refine ⟨rfl, ?_, rfl, ?_⟩ <;> decide

/-- C5 counterexample: when the Artillery done callback is not a
function, a connection-stage error is rethrown out of connectToMediator
instead of being contained. -/
theorem error_propagation_counterexample :
    (connectToMediator noDoneEnv).thrown = some "connect ECONNREFUSED" := rfl

/-- C5 amended: provided done is a function, every stage error is
contained inside connectToMediator — nothing is thrown to the caller
and the run always reports a result through at least one done call. -/
theorem errors_contained_spec (env : RunEnv) (hd : env.doneIsFn = true) :
    (connectToMediator env).thrown = none ∧
    (connectToMediator env).doneCalls ≠ [] := by
  obtain ⟨i, c, m, p, s, d, pl⟩ := env
  simp only at hd
  subst hd
  cases i <;> cases c <;> cases m <;> cases p <;>
    simp [connectToMediator, runFinally, runCatchFinally,
      emitCounter, emitHistogram]

/-- Witness for C5 amended at a concrete failing run with a functional
done callback. -/
theorem errors_contained_spec_witness :
    (connectToMediator connFailEnv).thrown = none ∧
    (connectToMediator connFailEnv).doneCalls ≠ [] :=
  errors_contained_spec connFailEnv rfl

/-- C4 counterexample, on the basic processor cited by the claim: a run
whose receiveInvitationFromUrl call throws never attempts teardown, and
on the all-success run a teardown failure flips the reported outcome
from done() to done(error) — both contradicting the claim that teardown
is always attempted and that its failure never changes the outcome. -/
theorem teardown_claim_counterexample :
    (basicConnectToMediator basicConnFailEnv).shutdownAttempted = false ∧
    (basicConnectToMediator basicOkEnv).doneCalls = [(none : Option String)] ∧
    (basicConnectToMediator basicShutFailEnv).doneCalls =
      [some "shutdown failed"] := by
  refine ⟨rfl, rfl, rfl⟩

/-- C4 amended: in the enhanced processor, every run whose agent was
initialized attempts teardown regardless of outcome, and the teardown
outcome never alters the emitted metrics, the done invocations or the
escaping exception. -/
theorem teardown_enhanced_spec (env : RunEnv)
    (hi : env.initRes = Except.ok ()) :
    (connectToMediator env).shutdownAttempted = true ∧
    ∀ s : Except String Unit,
      (connectToMediator { env with shutdownRes := s }).counters =
        (connectToMediator env).counters ∧
      (connectToMediator { env with shutdownRes := s }).histograms =
        (connectToMediator env).histograms ∧
      (connectToMediator { env with shutdownRes := s }).doneCalls =
        (connectToMediator env).doneCalls ∧
      (connectToMediator { env with shutdownRes := s }).thrown =
        (connectToMediator env).thrown := by
  obtain ⟨i, c, m, p, s0, d, pl⟩ := env
  simp only at hi
  subst hi
  refine ⟨?_, ?_⟩
  · cases c <;> cases m <;> cases p <;>
      simp [connectToMediator, runFinally, runCatchFinally]
  · intro s
    cases c <;> cases m <;> cases p <;>
      simp [connectToMediator, runFinally, runCatchFinally]

/-- Witness for C4 amended at a concrete successful run: teardown is
attempted and a failing teardown leaves the counters unchanged. -/
theorem teardown_enhanced_spec_witness :
    (connectToMediator allOkEnv).shutdownAttempted = true ∧
    (connectToMediator
        { allOkEnv with shutdownRes := Except.error "shutdown failed" }).counters
      = (connectToMediator allOkEnv).counters := by
  have h := teardown_enhanced_spec allOkEnv rfl
  exact ⟨h.1, (h.2 (Except.error "shutdown failed")).1⟩

/-- C10: whenever the enhanced processor catches an error (agent
initialization, connection or mediation failure) and done is a function,
done is invoked twice: first with the error in the catch block, then
with no argument in the finally block. -/
theorem done_called_twice_on_error (env : RunEnv) (e : String)
    (hd : env.doneIsFn = true)
    (herr : env.initRes = Except.error e ∨
      (env.initRes = Except.ok () ∧ env.connRes = Except.error e) ∨
      (env.initRes = Except.ok () ∧ env.connRes = Except.ok () ∧
        env.medRes = Except.error e)) :
    (connectToMediator env).doneCalls = [some e, none] := by
  obtain ⟨i, c, m, p, s, d, pl⟩ := env
  simp only at hd herr
  subst hd
  rcases herr with h | ⟨h1, h2⟩ | ⟨h1, h2, h3⟩ <;> subst_vars <;>
    simp [connectToMediator, runCatchFinally, emitCounter, emitHistogram]

/-- Witness for C10 at a concrete run whose connection stage fails with
a functional done callback. -/
theorem done_called_twice_on_error_witness :
    (connectToMediator connFailEnv).doneCalls =
      [some "Connection completion timeout", none] :=
  done_called_twice_on_error connFailEnv "Connection completion timeout"
    rfl (Or.inr (Or.inl ⟨rfl, rfl⟩))

theorem dashSplit_inj : ∀ (a c b d : List Char),
    '-' ∉ a → '-' ∉ c → a ++ '-' :: b = c ++ '-' :: d → a = c ∧ b = d := by
  intro a
  induction a with
  | nil =>
    intro c b d _ hc h
    cases c with
    | nil => simpa using h
    | cons y ys =>
      simp only [List.nil_append, List.cons_append, List.cons.injEq] at h
      exact absurd (h.1 ▸ List.mem_cons_self y ys) hc
  | cons x xs ih =>
    intro c b d ha hc h
    cases c with
    | nil =>
      simp only [List.nil_append, List.cons_append, List.cons.injEq] at h
      exact absurd (h.1 ▸ List.mem_cons_self x xs) ha
    | cons y ys =>
      simp only [List.cons_append, List.cons.injEq] at h
      obtain ⟨hxy, ht⟩ := h
      obtain ⟨h1, h2⟩ := ih ys b d
        (fun hm => ha (List.mem_cons_of_mem _ hm))
        (fun hm => hc (List.mem_cons_of_mem _ hm)) ht
      exact ⟨by rw [hxy, h1], h2⟩

theorem string_eq_of_data {a b : String} (h : a.data = b.data) : a = b := by
  cases a; cases b; exact congrArg String.mk h

/-- C7 counterexample: two distinct WalletRuns of the same run (run
indices 0 and 1) created in the same millisecond with the same
Math.random base36 draw receive the same wallet identifier, so the
identifier is not guaranteed unique per run. -/
theorem walletId_collision_counterexample :
    runWalletId (fun _ => "k7f3q9x2m4z1p") (fun _ => 1727600000000) 0 =
      runWalletId (fun _ => "k7f3q9x2m4z1p") (fun _ => 1727600000000) 1 ∧
    (0 : ℕ) ≠ 1 :=
  ⟨rfl, by decide⟩

/-- C7 amended: wallet identifiers are unique exactly up to the inputs
of the concatenation — two WalletRuns receive the same identifier only
if they share both the Math.random draw and the creation millisecond
(draws are dash-free base36 strings, so the dashes of the template
separate the pieces unambiguously). -/
theorem walletId_unique_when_inputs_differ (u1 u2 : String) (n1 n2 : ℕ)
    (h1 : '-' ∉ u1.data) (h2 : '-' ∉ u2.data)
    (h : walletId u1 n1 = walletId u2 n2) :
    u1 = u2 ∧ Nat.repr n1 = Nat.repr n2 := by
  have hd := congrArg String.data h
  have e1 : (walletId u1 n1).data
      = (("wallet-".data ++ u1.data) ++ ['-']) ++ (Nat.repr n1).data := rfl
  have e2 : (walletId u2 n2).data
      = (("wallet-".data ++ u2.data) ++ ['-']) ++ (Nat.repr n2).data := rfl
  rw [e1, e2] at hd
  have hd2 : "wallet-".data ++ (u1.data ++ '-' :: (Nat.repr n1).data)
      = "wallet-".data ++ (u2.data ++ '-' :: (Nat.repr n2).data) := by
    simpa [List.append_assoc] using hd
  have hd3 := List.append_cancel_left hd2
  obtain ⟨hu, ht⟩ := dashSplit_inj _ _ _ _ h1 h2 hd3
  exact ⟨string_eq_of_data hu, string_eq_of_data ht⟩

/-- Witness for C7 amended at concrete dash-free inputs. -/
theorem walletId_unique_witness :
    ("abc123" : String) = "abc123" ∧
    Nat.repr 1727600000000 = Nat.repr 1727600000000 :=
  walletId_unique_when_inputs_differ "abc123" "abc123"
    1727600000000 1727600000000 (by decide) (by decide) rfl

theorem gap_lt_duration_iff (r : ℚ) (hr : 0 < r) (k d : ℚ) :
    k * (1000 / r) < 1000 * d ↔ k < r * d := by
  rw [show k * (1000 / r) = 1000 * k / r by ring, div_lt_iff₀ hr]
  constructor <;> intro h <;> nlinarith

/-- C8: for a phase with constant rate r > 0 over duration d, the
scheduler emits the ceiling of r * d starts — within one of the floor of
r * d — at the fixed offsets offset + k * (1000 / r); every emitted
start falls strictly inside the phase duration, every start time inside
the duration is emitted, and a zero rate emits none. -/
theorem phaseStarts_spec (offset r d : ℚ) :
    (r = 0 → phaseStarts offset r d = []) ∧
    (0 < r →
      (phaseStarts offset r d).length = (⌈r * d⌉).toNat ∧
      (⌊r * d⌋ ≤ ⌈r * d⌉ ∧ ⌈r * d⌉ ≤ ⌊r * d⌋ + 1) ∧
      (∀ i : ℕ, i < (phaseStarts offset r d).length →
        (phaseStarts offset r d).getD i 0 = offset + (i : ℚ) * (1000 / r) ∧
        (i : ℚ) * (1000 / r) < 1000 * d) ∧
      (∀ k : ℕ, (k : ℚ) * (1000 / r) < 1000 * d →
        k < (phaseStarts offset r d).length)) := by
  constructor
  · intro h0
    simp [phaseStarts, h0]
  · intro hr
    have hlen : (phaseStarts offset r d).length = (⌈r * d⌉).toNat := by
      simp [phaseStarts, hr]
    refine ⟨hlen, ⟨Int.floor_le_ceil _, Int.ceil_le_floor_add_one _⟩, ?_, ?_⟩
    · intro i h
      have hi : i < (⌈r * d⌉).toNat := hlen ▸ h
      constructor
      · simp [phaseStarts, hr, List.getD_eq_getElem?_getD, List.getElem?_map,
          List.getElem?_range, hi]
      · have h1 : (i : ℤ) < ⌈r * d⌉ := Int.lt_toNat.mp hi
        have h2 : (i : ℚ) < r * d := by exact_mod_cast Int.lt_ceil.mp h1
        exact (gap_lt_duration_iff r hr (i : ℚ) d).mpr h2
    · intro k hk
      have h2 : (k : ℚ) < r * d := (gap_lt_duration_iff r hr (k : ℚ) d).mp hk
      have h1 : (k : ℤ) < ⌈r * d⌉ := Int.lt_ceil.mpr (by exact_mod_cast h2)
      rw [hlen]
      exact Int.lt_toNat.mpr h1

/-- Witness for C8: a constant rate of 2 per second over 5 seconds
emits exactly 10 starts, and a zero rate emits none. -/
theorem phaseStarts_spec_witness :
    (phaseStarts 0 2 5).length = 10 ∧ phaseStarts 0 0 5 = [] := by
  have h1 := ((phaseStarts_spec 0 2 5).2 (by decide)).1
  have h2 := (phaseStarts_spec 0 0 5).1 rfl
  refine ⟨?_, h2⟩
  rw [h1]
  have : (⌈(2 : ℚ) * 5⌉) = 10 := by norm_num
  rw [this]
  rfl
